import Mathlib

/-!
Verification of the persistence and change-tracking core of go-mongoid
(`document_persistable.go`): the `Base` document record, its change
tracker (`IsChanged` / `Changes`) and the persistence coordinator
(`Save` / `saveByInsert` / `saveByUpdate`).

The single source file provides `IsPersisted`, `IsChanged`, `Changes`,
`Save`, `saveByUpdate`, `saveByInsert`.  The collaborators it calls
(`ToBson`, `makeBsonDocumentDiff`, `SetField`,
`refreshPreviousValueBSON`, the mongo driver collection) live outside
the provided source; those are modelled from the specification, each
marked as such in its doc comment.
-/

namespace Mongoid

/-- A BSON value: an ObjectID, a scalar, an explicit null, or a nested
document (ordered list of key/value entries).  ObjectIDs are modelled as
naturals; the Go zero-value `primitive.ObjectID` (all-zero bytes) is the
zero natural. -/
inductive BsonValue where
  | objectID (oid : Nat) : BsonValue
  | str (s : String) : BsonValue
  | intVal (n : Int) : BsonValue
  | null : BsonValue
  | doc (entries : List (String × BsonValue)) : BsonValue

mutual

/-- Decidable structural equality on BSON values (deep, element-wise
comparison of nested documents, as required for diffing). -/
def BsonValue.deq : (a b : BsonValue) → Decidable (a = b)
  | .objectID a, .objectID b =>
      match Nat.decEq a b with
      | isTrue h => isTrue (congrArg BsonValue.objectID h)
      | isFalse h => isFalse (fun he => h (BsonValue.objectID.inj he))
  | .str a, .str b =>
      match String.decEq a b with
      | isTrue h => isTrue (congrArg BsonValue.str h)
      | isFalse h => isFalse (fun he => h (BsonValue.str.inj he))
  | .intVal a, .intVal b =>
      match Int.instDecidableEq a b with
      | isTrue h => isTrue (congrArg BsonValue.intVal h)
      | isFalse h => isFalse (fun he => h (BsonValue.intVal.inj he))
  | .null, .null => isTrue rfl
  | .doc a, .doc b =>
      match BsonValue.deqEntries a b with
      | isTrue h => isTrue (congrArg BsonValue.doc h)
      | isFalse h => isFalse (fun he => h (BsonValue.doc.inj he))
  | .objectID _, .str _ => isFalse nofun
  | .objectID _, .intVal _ => isFalse nofun
  | .objectID _, .null => isFalse nofun
  | .objectID _, .doc _ => isFalse nofun
  | .str _, .objectID _ => isFalse nofun
  | .str _, .intVal _ => isFalse nofun
  | .str _, .null => isFalse nofun
  | .str _, .doc _ => isFalse nofun
  | .intVal _, .objectID _ => isFalse nofun
  | .intVal _, .str _ => isFalse nofun
  | .intVal _, .null => isFalse nofun
  | .intVal _, .doc _ => isFalse nofun
  | .null, .objectID _ => isFalse nofun
  | .null, .str _ => isFalse nofun
  | .null, .intVal _ => isFalse nofun
  | .null, .doc _ => isFalse nofun
  | .doc _, .objectID _ => isFalse nofun
  | .doc _, .str _ => isFalse nofun
  | .doc _, .intVal _ => isFalse nofun
  | .doc _, .null => isFalse nofun

/-- Decidable equality for entry lists of nested documents. -/
def BsonValue.deqEntries : (a b : List (String × BsonValue)) → Decidable (a = b)
  | [], [] => isTrue rfl
  | [], _ :: _ => isFalse nofun
  | _ :: _, [] => isFalse nofun
  | (k1, v1) :: r1, (k2, v2) :: r2 =>
      match String.decEq k1 k2 with
      | isFalse h => isFalse (fun he => by
          injection he with hp _
          injection hp with hk _
          exact h hk)
      | isTrue hk =>
          match BsonValue.deq v1 v2 with
          | isFalse h => isFalse (fun he => by
              injection he with hp _
              injection hp with _ hv
              exact h hv)
          | isTrue hv =>
              match BsonValue.deqEntries r1 r2 with
              | isFalse h => isFalse (fun he => by
                  injection he with _ hr
                  exact h hr)
              | isTrue hr => isTrue (by rw [hk, hv, hr])

end

instance : DecidableEq BsonValue := BsonValue.deq

/-- `BsonDocument` is an ordered mapping from field path to BSON value
(Go `bson.M` materialised by the codec; the spec fixes it as an ordered
mapping, §2 and glossary). -/
abbrev BsonDocument := List (String × BsonValue)

/-- The Go zero-value ObjectID (`primitive.ObjectID{}` / `ZeroObjectID()`),
the store's sentinel "unset" identity. -/
def ZeroObjectID : Nat := 0

/-- Map lookup: `v, found := doc[k]` on a Go map, on the ordered-list model. -/
def bsonLookup : BsonDocument → String → Option BsonValue
  | [], _ => none
  | (k', v) :: rest, k => if k' = k then some v else bsonLookup rest k

/-- Map deletion: Go `delete(doc, k)`; removes the entry for key `k`. -/
def bsonDelete : BsonDocument → String → BsonDocument
  | [], _ => []
  | (k', v) :: rest, k =>
      if k' = k then bsonDelete rest k else (k', v) :: bsonDelete rest k

/-- Map write: sets key `k` to value `v`, replacing an existing entry in
place or appending a new one. -/
def bsonSet : BsonDocument → String → BsonValue → BsonDocument
  | [], k, v => [(k, v)]
  | (k', v') :: rest, k, v =>
      if k' = k then (k, v) :: rest else (k', v') :: bsonSet rest k v

/-- Lookup normalised for diffing: the spec's tie-break rule collapses an
explicit null and an absent path to the same "unset" reading (§4.2). -/
def bsonLookupN (d : BsonDocument) (k : String) : Option BsonValue :=
  match bsonLookup d k with
  | some BsonValue.null => none
  | r => r

/-- Modelled from the spec: `makeBsonDocumentDiff` (the Change Tracker's
`diff`, §4.2) is not in the provided source.  For every path present in
either snapshot, compare values; emit an entry keyed by the path with the
new-side value when they differ, or a null-valued entry when the new side
lacks the path; absence and explicit null collapse to "unset". -/
def makeBsonDocumentDiff (previous current : BsonDocument) : BsonDocument :=
  (current.filterMap (fun kv =>
    match bsonLookupN current kv.1 with
    | some v =>
        if bsonLookupN previous kv.1 = some v then none else some (kv.1, v)
    | none => none)) ++
  (previous.filterMap (fun kv =>
    match bsonLookupN previous kv.1 with
    | some _ =>
        if bsonLookupN current kv.1 = none then some (kv.1, BsonValue.null)
        else none
    | none => none))

/-- The document record (`Base`): `persisted` flag, current field values
(in their encoded structured-document form, per the spec's §9 note that
the reflective field storage is represented as its encoded form), and the
cached previous snapshot (`previousValue`). -/
structure Base where
  persisted : Bool
  fields : BsonDocument
  previousValue : BsonDocument
  deriving DecidableEq

/-- Modelled from the spec: the Structured Document Codec's `encode`
(§4.1) is not in the provided source; it is a deterministic pure function
of the field values, which the model stores already in encoded form. -/
def Base.ToBson (d : Base) : BsonDocument :=
  d.fields

/-- `IsPersisted` (document_persistable.go lines 18-21): returns the
`persisted` flag. -/
def Base.IsPersisted (d : Base) : Bool :=
  d.persisted

/-- `Changes` (lines 38-44): diff of the cached previous snapshot against
the current encoding. -/
def Base.Changes (d : Base) : BsonDocument :=
  makeBsonDocumentDiff d.previousValue d.ToBson

/-- `IsChanged` (lines 25-31): `if len(d.Changes()) > 0 { return true };
return false`. -/
def Base.IsChanged (d : Base) : Bool :=
  if 0 < d.Changes.length then true else false

/-- Modelled from the spec: `refreshPreviousValueBSON` (the Change
Tracker's `refreshSnapshot`, §4.2) is not in the provided source; it
recomputes the previous snapshot as the current encoding. -/
def Base.refreshPreviousValueBSON (d : Base) : Base :=
  { d with previousValue := d.ToBson }

/-- The environment behind the store-facing collaborators: the mongo
driver collection's `InsertOne` (returning the assigned `InsertedID` or
an error) and the injected outcome of the field-accessor writeback
(`SetField` failing with an error, or succeeding). -/
structure StoreEnv where
  insertOne : BsonDocument → Except String BsonValue
  setFieldFails : Option String

/-- Modelled from the spec: the field accessor capability
`setField(path, value) → error` (§6) is not in the provided source; on
success it writes the value at the path, and its possible rejection of
the value is injected through the environment. -/
def Base.SetField (d : Base) (env : StoreEnv) (path : String)
    (v : BsonValue) : Except String Base :=
  match env.setFieldFails with
  | some e => Except.error e
  | none => Except.ok { d with fields := bsonSet d.fields path v }

/-- How a call into the Go persistence code can end: a normal return with
a nil error, a normal return with a non-nil error, process termination
via `log.Fatal`, or a panic via `log.Panic`. -/
inductive SaveOutcome where
  | ok : SaveOutcome
  | errReturn (e : String) : SaveOutcome
  | fatal : SaveOutcome
  | panicked : SaveOutcome
  deriving DecidableEq

/-- Observable result of a save call: the record state afterwards, how
the call ended, whether a timeout context was acquired
(`context.WithTimeout`, line 78), whether its cancel function was ever
invoked before returning, and the document passed to `InsertOne` (if the
insert was issued). -/
structure SaveResult where
  record : Base
  outcome : SaveOutcome
  ctxAcquired : Bool
  ctxCancelReleased : Bool
  sentInsert : Option BsonDocument

/-- Lines 83-92 of `saveByInsert`: if there is a root `_id` entry whose
dynamic type is `ObjectID` and whose value is the zero ObjectID, delete
it from the outgoing document; otherwise leave the document unchanged. -/
def dropZeroRootId (insertBson : BsonDocument) : BsonDocument :=
  match bsonLookup insertBson "_id" with
  | some (BsonValue.objectID oid) =>
      if oid = ZeroObjectID then bsonDelete insertBson "_id" else insertBson
  | some _ => insertBson
  | none => insertBson

/-- `saveByUpdate` (lines 65-70): an unimplemented stub that calls
`log.Fatal("NYI Save() - PERSISTED")`, terminating the process; the
trailing `return nil` is unreachable.  No context is acquired and no
store operation is issued. -/
def Base.saveByUpdate (d : Base) : SaveResult :=
  { record := d, outcome := SaveOutcome.fatal,
    ctxAcquired := false, ctxCancelReleased := false, sentInsert := none }

/-- `saveByInsert` (lines 72-109).  Line 78 acquires a 5-second timeout
context with `ctx, _ := context.WithTimeout(...)`, discarding the cancel
function, so no exit path ever invokes it.  Lines 80-92 encode the
record and drop a zero root ObjectID `_id`.  Line 94 issues the insert;
on error, line 96 calls `log.Fatal(err)` (process termination).  On
success, lines 101-104 write the assigned identity back via `SetField`,
calling `log.Error` + `log.Panic` if that fails; otherwise line 106 sets
`persisted = true`, line 107 refreshes the snapshot, and line 108
returns nil. -/
def Base.saveByInsert (d : Base) (env : StoreEnv) : SaveResult :=
  let insertBson := dropZeroRootId d.ToBson
  match env.insertOne insertBson with
  | Except.error _ =>
      { record := d, outcome := SaveOutcome.fatal,
        ctxAcquired := true, ctxCancelReleased := false,
        sentInsert := some insertBson }
  | Except.ok id =>
      match d.SetField env "_id" id with
      | Except.error _ =>
          { record := d, outcome := SaveOutcome.panicked,
            ctxAcquired := true, ctxCancelReleased := false,
            sentInsert := some insertBson }
      | Except.ok dSet =>
          { record := Base.refreshPreviousValueBSON { dSet with persisted := true },
            outcome := SaveOutcome.ok,
            ctxAcquired := true, ctxCancelReleased := false,
            sentInsert := some insertBson }

/-- `Save` (lines 54-63): dispatch on the persisted flag — update if
persisted, insert otherwise. -/
def Base.Save (d : Base) (env : StoreEnv) : SaveResult :=
  if d.IsPersisted then d.saveByUpdate else d.saveByInsert env

/-- A new (unpersisted) record with one changed field, `name = "A"`,
against an empty previous snapshot. -/
def sampleNew : Base :=
  { persisted := false,
    fields := [("name", BsonValue.str "A")],
    previousValue := [] }

/-- A new record carrying a zero-value ObjectID in its `_id` field. -/
def sampleNewZeroId : Base :=
  { persisted := false,
    fields := [("_id", BsonValue.objectID 0), ("name", BsonValue.str "A")],
    previousValue := [] }

/-- A persisted record whose field `b` changed since the last sync. -/
def samplePersisted : Base :=
  { persisted := true,
    fields := [("_id", BsonValue.objectID 7), ("b", BsonValue.str "new")],
    previousValue := [("_id", BsonValue.objectID 7), ("b", BsonValue.str "old")] }

/-- A store whose insert fails with a simulated error. -/
def envInsertFails : StoreEnv :=
  { insertOne := fun _ => Except.error "simulated store failure",
    setFieldFails := none }

/-- A store whose insert succeeds, assigning ObjectID 42; the identity
writeback also succeeds. -/
def envInsertOk : StoreEnv :=
  { insertOne := fun _ => Except.ok (BsonValue.objectID 42),
    setFieldFails := none }

/-- A store whose insert succeeds, but the identity writeback fails. -/
def envWritebackFails : StoreEnv :=
  { insertOne := fun _ => Except.ok (BsonValue.objectID 42),
    setFieldFails := some "field accessor rejected the value" }

theorem bsonLookup_bsonDelete_self (d : BsonDocument) (k : String) :
    bsonLookup (bsonDelete d k) k = none := by
  induction d with
  | nil => rfl
  | cons kv rest ih =>
      obtain ⟨k', v⟩ := kv
      by_cases h : k' = k
      · simp [bsonDelete, h, ih]
      · simp [bsonDelete, bsonLookup, h, ih]

theorem bsonLookup_bsonDelete_ne (d : BsonDocument) (k k0 : String)
    (hne : k0 ≠ k) : bsonLookup (bsonDelete d k) k0 = bsonLookup d k0 := by
  have hk : k ≠ k0 := fun hc => hne hc.symm
  induction d with
  | nil => rfl
  | cons kv rest ih =>
      obtain ⟨k', v⟩ := kv
      by_cases h : k' = k
      · subst h
        simp [bsonDelete, bsonLookup, hk, ih]
      · by_cases h0 : k' = k0
        · subst h0
          simp [bsonDelete, bsonLookup, hne]
        · simp [bsonDelete, bsonLookup, h, h0, ih]

theorem bsonLookup_bsonSet_self (d : BsonDocument) (k : String)
    (v : BsonValue) : bsonLookup (bsonSet d k v) k = some v := by
  induction d with
  | nil => simp [bsonSet, bsonLookup]
  | cons kv rest ih =>
      obtain ⟨k', v'⟩ := kv
      by_cases h : k' = k
      · simp [bsonSet, bsonLookup, h]
      · simp [bsonSet, bsonLookup, h, ih]

theorem makeBsonDocumentDiff_self (b : BsonDocument) :
    makeBsonDocumentDiff b b = [] := by
  unfold makeBsonDocumentDiff
  rw [List.append_eq_nil]
  constructor
  · rw [List.filterMap_eq_nil_iff]
    intro kv _
    cases h : bsonLookupN b kv.1 with
    | none => simp [h]
    | some v => simp [h]
  · rw [List.filterMap_eq_nil_iff]
    intro kv _
    cases h : bsonLookupN b kv.1 with
    | none => simp [h]
    | some v => simp [h]

theorem Save_of_not_persisted (d : Base) (env : StoreEnv)
    (h : d.persisted = false) : d.Save env = d.saveByInsert env := by
  simp [Base.Save, Base.IsPersisted, h]

theorem Save_of_persisted (d : Base) (env : StoreEnv)
    (h : d.persisted = true) : d.Save env = d.saveByUpdate := by
  simp [Base.Save, Base.IsPersisted, h]

theorem saveByInsert_sentInsert (d : Base) (env : StoreEnv) :
    (d.saveByInsert env).sentInsert = some (dropZeroRootId d.fields) := by
  unfold Base.saveByInsert Base.ToBson
  cases h : env.insertOne (dropZeroRootId d.fields) with
  | error e => simp [h]
  | ok id =>
      cases hs : d.SetField env "_id" id with
      | error e => simp [h, hs]
      | ok dSet => simp [h, hs]

theorem saveByInsert_ctx (d : Base) (env : StoreEnv) :
    (d.saveByInsert env).ctxAcquired = true ∧
    (d.saveByInsert env).ctxCancelReleased = false := by
  unfold Base.saveByInsert Base.ToBson
  cases h : env.insertOne (dropZeroRootId d.fields) with
  | error e => simp [h]
  | ok id =>
      cases hs : d.SetField env "_id" id with
      | error e => simp [h, hs]
      | ok dSet => simp [h, hs]

theorem saveByInsert_no_errReturn (d : Base) (env : StoreEnv) (e : String) :
    (d.saveByInsert env).outcome ≠ SaveOutcome.errReturn e := by
  unfold Base.saveByInsert Base.ToBson
  cases h : env.insertOne (dropZeroRootId d.fields) with
  | error e0 => simp [h]
  | ok id =>
      cases hs : d.SetField env "_id" id with
      | error e0 => simp [h, hs]
      | ok dSet => simp [h, hs]

theorem saveByInsert_record_of_not_ok (d : Base) (env : StoreEnv)
    (h : (d.saveByInsert env).outcome ≠ SaveOutcome.ok) :
    (d.saveByInsert env).record = d := by
  revert h
  unfold Base.saveByInsert Base.ToBson
  cases h : env.insertOne (dropZeroRootId d.fields) with
  | error e => simp [h]
  | ok id =>
      cases hs : d.SetField env "_id" id with
      | error e => simp [h, hs]
      | ok dSet => simp [h, hs]

theorem saveByInsert_success (d : Base) (env : StoreEnv) (x : BsonValue)
    (hi : env.insertOne (dropZeroRootId d.fields) = Except.ok x)
    (hf : env.setFieldFails = none) :
    d.saveByInsert env =
      { record := { persisted := true,
                    fields := bsonSet d.fields "_id" x,
                    previousValue := bsonSet d.fields "_id" x },
        outcome := SaveOutcome.ok,
        ctxAcquired := true, ctxCancelReleased := false,
        sentInsert := some (dropZeroRootId d.fields) } := by
  simp [Base.saveByInsert, Base.ToBson, Base.SetField,
    Base.refreshPreviousValueBSON, hi, hf]

theorem dropZeroRootId_of_zero (d : BsonDocument)
    (h : bsonLookup d "_id" = some (BsonValue.objectID ZeroObjectID)) :
    dropZeroRootId d = bsonDelete d "_id" := by
  unfold dropZeroRootId
  rw [h]
  simp [ZeroObjectID]

theorem dropZeroRootId_of_not_zero (d : BsonDocument)
    (h : bsonLookup d "_id" ≠ some (BsonValue.objectID ZeroObjectID)) :
    dropZeroRootId d = d := by
  unfold dropZeroRootId
  cases hl : bsonLookup d "_id" with
  | none => rfl
  | some v =>
      cases v with
      | objectID oid =>
          have : oid ≠ ZeroObjectID := by
            intro hc
            exact h (by rw [hl, hc])
          simp [this]
      | str s => rfl
      | intVal n => rfl
      | null => rfl
      | doc entries => rfl

/-- C1: the claim says a failed store insert makes Save() return the
error with persisted still false and the snapshot untouched.  At the
failing input — a new record (with a non-empty pre-save diff) whose
store insert fails — the code instead reaches `log.Fatal(err)` (line
96), terminating the process; no error value is ever returned. -/
theorem save_insertFailure_is_fatal_not_errReturn :
    sampleNew.IsChanged = true ∧
    (sampleNew.Save envInsertFails).outcome = SaveOutcome.fatal := by
  decide

/-- C2: on a record with persisted = false, when the store insert
succeeds with assigned identity x and the identity writeback succeeds,
Save() returns nil, writes x into the record's `_id` field, sets
persisted = true and refreshes the cached snapshot from the current
encoding, so IsPersisted() is true and IsChanged() is false. -/
theorem save_insertSuccess_assigns_identity_and_refreshes
    (d : Base) (env : StoreEnv) (x : BsonValue)
    (hp : d.persisted = false)
    (hi : env.insertOne (dropZeroRootId d.fields) = Except.ok x)
    (hf : env.setFieldFails = none) :
    (d.Save env).outcome = SaveOutcome.ok ∧
    bsonLookup (d.Save env).record.fields "_id" = some x ∧
    (d.Save env).record.IsPersisted = true ∧
    (d.Save env).record.previousValue = (d.Save env).record.fields ∧
    (d.Save env).record.IsChanged = false := by
  rw [Save_of_not_persisted d env hp, saveByInsert_success d env x hi hf]
  refine ⟨rfl, bsonLookup_bsonSet_self _ _ _, rfl, rfl, ?_⟩
  simp [Base.IsChanged, Base.Changes, Base.ToBson, makeBsonDocumentDiff_self]

/-- C2 witness: the successful insert scenario at a concrete new record
and a store assigning ObjectID 42. -/
theorem save_insertSuccess_witness :
    (sampleNew.Save envInsertOk).outcome = SaveOutcome.ok ∧
    bsonLookup (sampleNew.Save envInsertOk).record.fields "_id" =
      some (BsonValue.objectID 42) ∧
    (sampleNew.Save envInsertOk).record.IsPersisted = true ∧
    (sampleNew.Save envInsertOk).record.previousValue =
      (sampleNew.Save envInsertOk).record.fields ∧
    (sampleNew.Save envInsertOk).record.IsChanged = false :=
  save_insertSuccess_assigns_identity_and_refreshes sampleNew envInsertOk
    (BsonValue.objectID 42) rfl rfl rfl

/-- C3: on the insert path, a record whose encoded document holds the
zero/sentinel ObjectID in its `_id` field has that entry removed from
the outgoing document, so the document sent to the store has no
identifier path. -/
theorem save_insert_drops_zero_identifier
    (d : Base) (env : StoreEnv)
    (hp : d.persisted = false)
    (hz : bsonLookup d.fields "_id" = some (BsonValue.objectID ZeroObjectID)) :
    ∃ outDoc, (d.Save env).sentInsert = some outDoc ∧
      bsonLookup outDoc "_id" = none := by
  rw [Save_of_not_persisted d env hp]
  refine ⟨dropZeroRootId d.fields, saveByInsert_sentInsert d env, ?_⟩
  rw [dropZeroRootId_of_zero d.fields hz]
  exact bsonLookup_bsonDelete_self d.fields "_id"

/-- C3 witness: the zero-identifier record with fields
`{_id: zero ObjectID, name: "A"}` issues an INSERT with no `_id`. -/
theorem save_insert_drops_zero_identifier_witness :
    ∃ outDoc, (sampleNewZeroId.Save envInsertOk).sentInsert = some outDoc ∧
      bsonLookup outDoc "_id" = none :=
  save_insert_drops_zero_identifier sampleNewZeroId envInsertOk rfl rfl

/-- C4: the claim says the update path computes the diff, no-ops or
issues a keyed UPDATE, refreshes on success, and never crashes.  At the
failing input — a persisted record with a non-empty diff — the code's
`saveByUpdate` stub instead reaches `log.Fatal("NYI Save() -
PERSISTED")` (line 68): the process is terminated, no store operation is
issued, and no state is touched. -/
theorem save_update_path_is_fatal_stub :
    samplePersisted.IsChanged = true ∧
    (samplePersisted.Save envInsertOk).outcome = SaveOutcome.fatal ∧
    (samplePersisted.Save envInsertOk).sentInsert = none ∧
    (samplePersisted.Save envInsertOk).record = samplePersisted := by
  decide

/-- C5: the claim says a failed identity writeback makes Save() return
that failure as an error value.  At the failing input — insert accepted,
`SetField("_id", id)` failing — the code instead reaches `log.Panic(err)`
(line 103): it panics rather than returning an error value; persisted is
left false only because the panic aborts the function. -/
theorem save_writebackFailure_panics_not_errReturn :
    (sampleNew.Save envWritebackFails).outcome = SaveOutcome.panicked ∧
    (sampleNew.Save envWritebackFails).record.persisted = false := by
  decide

/-- C6: Save() dispatches solely on the persisted flag — true takes the
update path, false the insert path — and the record is mutated only when
the underlying store operation (and writeback) has succeeded: on every
non-ok outcome the record is unchanged. -/
theorem save_dispatches_on_persisted_and_mutates_only_on_success
    (d : Base) (env : StoreEnv) :
    (d.persisted = true → d.Save env = d.saveByUpdate) ∧
    (d.persisted = false → d.Save env = d.saveByInsert env) ∧
    ((d.Save env).outcome ≠ SaveOutcome.ok → (d.Save env).record = d) := by
  refine ⟨Save_of_persisted d env, Save_of_not_persisted d env, ?_⟩
  intro hno
  cases hp : d.persisted with
  | false =>
      rw [Save_of_not_persisted d env hp] at hno ⊢
      exact saveByInsert_record_of_not_ok d env hno
  | true =>
      rw [Save_of_persisted d env hp]
      rfl

/-- C6 witness: the dispatch at a concrete unpersisted record. -/
theorem save_dispatches_witness :
    sampleNew.Save envInsertFails = sampleNew.saveByInsert envInsertFails :=
  (save_dispatches_on_persisted_and_mutates_only_on_success sampleNew
    envInsertFails).2.1 rfl

/-- C7: the claim says the per-call timeout context is released
unconditionally on every exit path.  The code acquires it with
`ctx, _ := context.WithTimeout(...)` (line 78), discarding the cancel
function, so on every exit path — success, store error, and writeback
failure alike — the context is acquired but its cancel is never
invoked. -/
theorem save_insert_ctx_never_released :
    ((sampleNew.Save envInsertOk).ctxAcquired = true ∧
      (sampleNew.Save envInsertOk).ctxCancelReleased = false) ∧
    ((sampleNew.Save envInsertFails).ctxAcquired = true ∧
      (sampleNew.Save envInsertFails).ctxCancelReleased = false) ∧
    ((sampleNew.Save envWritebackFails).ctxAcquired = true ∧
      (sampleNew.Save envWritebackFails).ctxCancelReleased = false) := by
  decide

/-- C8: Changes() is a pure function of the record state, so two
consecutive calls without intervening mutation or Save() return
structurally equal diffs; and IsChanged() is true exactly when Changes()
has at least one entry. -/
theorem changes_idempotent_and_isChanged_iff (d : Base) :
    d.Changes = d.Changes ∧ (d.IsChanged = true ↔ 0 < d.Changes.length) := by
  refine ⟨rfl, ?_⟩
  unfold Base.IsChanged
  split
  · simp_all
  · simp_all

/-- C8 witness: the equivalence at a concrete changed record. -/
theorem changes_idempotent_witness : sampleNew.IsChanged = true :=
  (changes_idempotent_and_isChanged_iff sampleNew).2.mpr (by decide)

/-- C9: the sent insert document is exactly the result of the root-id
drop step; the entry is dropped when the root `_id` holds a zero-valued
ObjectID; for any other root `_id` (absent, other dynamic type, or
non-zero ObjectID) the document is sent unchanged; and every root entry
other than `_id` — including nested documents that may contain their own
`_id` below the root — is passed through untouched. -/
theorem insert_identifier_drop_is_root_zero_objectID_only
    (d : Base) (env : StoreEnv) (hp : d.persisted = false) :
    (d.Save env).sentInsert = some (dropZeroRootId d.fields) ∧
    (bsonLookup d.fields "_id" = some (BsonValue.objectID ZeroObjectID) →
      bsonLookup (dropZeroRootId d.fields) "_id" = none) ∧
    (bsonLookup d.fields "_id" ≠ some (BsonValue.objectID ZeroObjectID) →
      dropZeroRootId d.fields = d.fields) ∧
    (∀ k, k ≠ "_id" →
      bsonLookup (dropZeroRootId d.fields) k = bsonLookup d.fields k) := by
  refine ⟨?_, ?_, dropZeroRootId_of_not_zero d.fields, ?_⟩
  · rw [Save_of_not_persisted d env hp]
    exact saveByInsert_sentInsert d env
  · intro hz
    rw [dropZeroRootId_of_zero d.fields hz]
    exact bsonLookup_bsonDelete_self d.fields "_id"
  · intro k hk
    by_cases hz : bsonLookup d.fields "_id" = some (BsonValue.objectID ZeroObjectID)
    · rw [dropZeroRootId_of_zero d.fields hz]
      exact bsonLookup_bsonDelete_ne d.fields "_id" k hk
    · rw [dropZeroRootId_of_not_zero d.fields hz]

/-- C9 witness: the characterisation applied at a concrete new record. -/
theorem insert_identifier_drop_witness :
    (sampleNew.Save envInsertOk).sentInsert =
      some (dropZeroRootId sampleNew.fields) :=
  (insert_identifier_drop_is_root_zero_objectID_only sampleNew
    envInsertOk rfl).1

/-- C10: on a record with persisted = false, Save() never returns a
non-nil error: every failure branch of the insert path ends in
`log.Fatal` or `log.Panic` (process termination) rather than an error
return, so the only normal return carries a nil error. -/
theorem save_unpersisted_never_returns_error
    (d : Base) (env : StoreEnv) (e : String) (hp : d.persisted = false) :
    (d.Save env).outcome ≠ SaveOutcome.errReturn e := by
  rw [Save_of_not_persisted d env hp]
  exact saveByInsert_no_errReturn d env e

/-- C10 witness: the failed-insert scenario still yields no error
return (the process is terminated instead). -/
theorem save_unpersisted_never_returns_error_witness :
    (sampleNew.Save envInsertFails).outcome ≠
      SaveOutcome.errReturn "simulated store failure" :=
  save_unpersisted_never_returns_error sampleNew envInsertFails
    "simulated store failure" rfl

end Mongoid
